import Mathlib

/-!
Shallow embedding of the scoring / badge / leaderboard engine of
`src/api/scoring-algorithm.js`, together with proofs about the claims of the
specification.

Modelling conventions:
* JS numbers are modelled as `ℚ` (every arithmetic operation the engine
  performs on the inputs considered here is exact); results of `Math.round`
  are `ℤ`.
* `Math.round x` is `⌊x + 1/2⌋` (JS rounds half toward positive infinity,
  also for negative arguments).
* `Math.log10` has no rational closed form, so the scoring engine is
  parametrised by a function `log10 : ℚ → ℚ`.  Every theorem below is proved
  for an arbitrary `log10`, hence holds in particular for the real logarithm.
* Wall-clock reads (`new Date()` in `checkEligibility`, `Date.now()` in
  `calculateTrendingScore`, `new Date()` in `generateTrendingLeaderboard`) are
  modelled by an explicit `now` argument threaded to exactly the operations
  that read the clock in the source; instants are numbers of days since an
  arbitrary epoch, and the ISO timestamp written into `earnedAt` is
  identified with the instant it renders.
* Calendar-day date strings (`"YYYY-MM-DD"`) are identified with their epoch
  day numbers: lexicographic order on such strings is day-number order, and
  the `(date2 - date1) / 86400000` computation of the source is exactly the
  day-number difference.
-/

namespace PromptRepo

/-- JS `Math.round`: round half toward positive infinity. -/
def jround (q : ℚ) : ℤ := ⌊q + 1/2⌋

/-- The `PromptSignal` snapshot consumed by `PromptScoringEngine`: the fields
destructured from `promptData` in the source, after the `= 0` / `= null`
destructuring defaults have been applied. -/
structure PromptData where
  averageRating : ℚ
  ratingCount : ℚ
  usageCount : ℚ
  daysSinceCreated : ℚ
  lastUsedDaysAgo : Option ℚ
  favoriteCount : ℚ
  shareCount : ℚ
  viewCount : ℚ
  commentCount : ℚ
deriving DecidableEq

/-- Constructor-initialised `this.weights.rating` of `PromptScoringEngine`. -/
def ratingWeight : ℚ := 0.4

/-- Constructor-initialised `this.weights.usage`. -/
def usageWeight : ℚ := 0.3

/-- Constructor-initialised `this.weights.recency`. -/
def recencyWeight : ℚ := 0.2

/-- Constructor-initialised `this.weights.engagement`. -/
def engagementWeight : ℚ := 0.1

/-- Constructor-initialised `this.maxScores.rating`. -/
def ratingMax : ℚ := 100

/-- Constructor-initialised `this.maxScores.usage`. -/
def usageMax : ℚ := 50

/-- Constructor-initialised `this.maxScores.recency`. -/
def recencyMax : ℚ := 20

/-- Constructor-initialised `this.maxScores.engagement`. -/
def engagementMax : ℚ := 30

/-- `getConfidenceMultiplier(ratingCount)`, source lines 131-138. -/
def getConfidenceMultiplier (ratingCount : ℚ) : ℚ :=
  if 50 ≤ ratingCount then 1.0
  else if 25 ≤ ratingCount then 0.95
  else if 10 ≤ ratingCount then 0.9
  else if 5 ≤ ratingCount then 0.8
  else if 3 ≤ ratingCount then 0.7
  else 0.6

/-- `calculateRatingScore(promptData)`, source lines 49-62. -/
def calculateRatingScore (d : PromptData) : ℤ :=
  if d.ratingCount = 0 then 0
  else
    jround ((((d.averageRating - 1) / 4) * ratingMax) *
      getConfidenceMultiplier d.ratingCount)

/-- `calculateUsageScore(promptData)`, source lines 69-82; `log10` abstracts
`Math.log10`. -/
def calculateUsageScore (log10 : ℚ → ℚ) (d : PromptData) : ℤ :=
  if d.usageCount = 0 then 0
  else
    let usageVelocity :=
      if 0 < d.daysSinceCreated then d.usageCount / d.daysSinceCreated
      else d.usageCount
    let baseScore := log10 (d.usageCount + 1) * 15
    let velocityBonus := min (usageVelocity * 5) 20
    jround (min (baseScore + velocityBonus) usageMax)

/-- `calculateRecencyScore(promptData)`, source lines 89-101. -/
def calculateRecencyScore (d : PromptData) : ℤ :=
  let recencyScore := max 0 (recencyMax - d.daysSinceCreated * 0.5)
  let withBonus :=
    match d.lastUsedDaysAgo with
    | some lastUsed =>
        if lastUsed < 7 then recencyScore + max 0 (10 - lastUsed)
        else recencyScore
    | none => recencyScore
  jround (min withBonus recencyMax)

/-- `calculateEngagementScore(promptData)`, source lines 108-124. -/
def calculateEngagementScore (d : PromptData) : ℤ :=
  let engagementScore :=
    d.favoriteCount * 3 + d.shareCount * 2 + d.commentCount * 1.5 +
      d.viewCount * 0.1
  jround (min engagementScore engagementMax)

/-- `calculateScore(promptData)`, source lines 28-42. -/
def calculateScore (log10 : ℚ → ℚ) (d : PromptData) : ℤ :=
  let ratingScore := calculateRatingScore d
  let usageScore := calculateUsageScore log10 d
  let recencyScore := calculateRecencyScore d
  let engagementScore := calculateEngagementScore d
  let totalScore := jround
    ((ratingScore : ℚ) * ratingWeight + (usageScore : ℚ) * usageWeight +
     (recencyScore : ℚ) * recencyWeight + (engagementScore : ℚ) * engagementWeight)
  max 0 (min 200 totalScore)

/-- One component of `getScoreBreakdown`'s result. -/
structure BreakdownComponent where
  score : ℤ
  weight : ℚ
  contribution : ℤ
deriving DecidableEq

/-- The full result of `getScoreBreakdown(promptData)`, source lines 179-207. -/
structure ScoreBreakdown where
  rating : BreakdownComponent
  usage : BreakdownComponent
  recency : BreakdownComponent
  engagement : BreakdownComponent
deriving DecidableEq

/-- `getScoreBreakdown(promptData)`, source lines 179-207. -/
def getScoreBreakdown (log10 : ℚ → ℚ) (d : PromptData) : ScoreBreakdown :=
  let ratingScore := calculateRatingScore d
  let usageScore := calculateUsageScore log10 d
  let recencyScore := calculateRecencyScore d
  let engagementScore := calculateEngagementScore d
  { rating := ⟨ratingScore, ratingWeight, jround ((ratingScore : ℚ) * ratingWeight)⟩
    usage := ⟨usageScore, usageWeight, jround ((usageScore : ℚ) * usageWeight)⟩
    recency := ⟨recencyScore, recencyWeight, jround ((recencyScore : ℚ) * recencyWeight)⟩
    engagement := ⟨engagementScore, engagementWeight,
      jround ((engagementScore : ℚ) * engagementWeight)⟩ }

/-- The confidence-multiplier tier function exactly as the specification words
it: thresholds are inclusive lower bounds of successive tiers and the highest
satisfied tier applies (`<3→0.6, <5→0.7, <10→0.8, <25→0.9, <50→0.95, ≥50→1.0`). -/
def specConfidenceMultiplier (ratingCount : ℚ) : ℚ :=
  if ratingCount < 3 then 0.6
  else if ratingCount < 5 then 0.7
  else if ratingCount < 10 then 0.8
  else if ratingCount < 25 then 0.9
  else if ratingCount < 50 then 0.95
  else 1.0

/-! Badge Eligibility Engine. -/

/-- The `UserStats` aggregate snapshot consumed by `BadgeEligibilityEngine`. -/
structure UserStats where
  totalPrompts : ℤ
  activePrompts : ℤ
  totalUsage : ℤ
  totalRatings : ℤ
  averageRating : ℚ
  longestStreak : ℤ
  featuredPrompts : ℤ
  topRankedPrompts : ℤ
  currentBadgeCount : ℤ
deriving DecidableEq

/-- A `BadgeGrant` as pushed by `checkEligibility`: `earnedAt` is the clock
instant rendered by `new Date().toISOString()`. -/
structure BadgeGrant where
  badgeId : String
  type : String
  earnedAt : ℚ
deriving DecidableEq

/-- One entry of `this.badgeCriteria`: a badge id, its `type` tag, and its
`check` predicate over `UserStats`. -/
structure BadgeCriterion where
  id : String
  type : String
  check : UserStats → Bool

/-- `this.badgeCriteria` of `BadgeEligibilityEngine` (source lines 216-287),
in object-literal insertion order, which is the order `Object.entries`
iterates. -/
def badgeCriteria : List BadgeCriterion :=
  [⟨"first-steps", "submission", fun s => decide (1 ≤ s.totalPrompts)⟩,
   ⟨"getting-started", "submission", fun s => decide (5 ≤ s.totalPrompts)⟩,
   ⟨"prolific-creator", "submission", fun s => decide (25 ≤ s.totalPrompts)⟩,
   ⟨"content-machine", "submission", fun s => decide (100 ≤ s.totalPrompts)⟩,
   ⟨"popular-choice", "usage", fun s => decide (100 ≤ s.totalUsage)⟩,
   ⟨"crowd-favorite", "usage", fun s => decide (500 ≤ s.totalUsage)⟩,
   ⟨"viral-creator", "usage", fun s => decide (2000 ≤ s.totalUsage)⟩,
   ⟨"well-received", "score",
     fun s => decide (3.5 ≤ s.averageRating) && decide (5 ≤ s.totalRatings)⟩,
   ⟨"highly-rated", "score",
     fun s => decide (4.0 ≤ s.averageRating) && decide (10 ≤ s.totalRatings)⟩,
   ⟨"excellence", "score",
     fun s => decide (4.5 ≤ s.averageRating) && decide (25 ≤ s.totalRatings)⟩,
   ⟨"perfection", "score",
     fun s => decide (4.8 ≤ s.averageRating) && decide (50 ≤ s.totalRatings)⟩,
   ⟨"consistent", "streak", fun s => decide (7 ≤ s.longestStreak)⟩,
   ⟨"dedicated", "streak", fun s => decide (30 ≤ s.longestStreak)⟩,
   ⟨"trendsetter", "special", fun s => decide (1 ≤ s.featuredPrompts)⟩,
   ⟨"community-favorite", "special", fun s => decide (3 ≤ s.topRankedPrompts)⟩]

/-- `checkEligibility(userStats, currentBadges)`, source lines 295-310.
The only use the source makes of `currentBadges` is the set of its
`badgeId`s, so the parameter is that list of ids; `now` is the wall-clock
instant read by `new Date()` when a grant is pushed. -/
def checkEligibility (userStats : UserStats) (currentBadgeIds : List String)
    (now : ℚ) : List BadgeGrant :=
  (badgeCriteria.filter fun c =>
      !(decide (c.id ∈ currentBadgeIds)) && c.check userStats).map
    fun c => ⟨c.id, c.type, now⟩

/-- The badge registry exactly as tabled in the specification (§4.2), with
each predicate written as the table's conjunction. -/
def specBadgeTable : List BadgeCriterion :=
  [⟨"first-steps", "submission", fun s => decide (s.totalPrompts ≥ 1)⟩,
   ⟨"getting-started", "submission", fun s => decide (s.totalPrompts ≥ 5)⟩,
   ⟨"prolific-creator", "submission", fun s => decide (s.totalPrompts ≥ 25)⟩,
   ⟨"content-machine", "submission", fun s => decide (s.totalPrompts ≥ 100)⟩,
   ⟨"popular-choice", "usage", fun s => decide (s.totalUsage ≥ 100)⟩,
   ⟨"crowd-favorite", "usage", fun s => decide (s.totalUsage ≥ 500)⟩,
   ⟨"viral-creator", "usage", fun s => decide (s.totalUsage ≥ 2000)⟩,
   ⟨"well-received", "score",
     fun s => decide (s.averageRating ≥ 3.5 ∧ s.totalRatings ≥ 5)⟩,
   ⟨"highly-rated", "score",
     fun s => decide (s.averageRating ≥ 4.0 ∧ s.totalRatings ≥ 10)⟩,
   ⟨"excellence", "score",
     fun s => decide (s.averageRating ≥ 4.5 ∧ s.totalRatings ≥ 25)⟩,
   ⟨"perfection", "score",
     fun s => decide (s.averageRating ≥ 4.8 ∧ s.totalRatings ≥ 50)⟩,
   ⟨"consistent", "streak", fun s => decide (s.longestStreak ≥ 7)⟩,
   ⟨"dedicated", "streak", fun s => decide (s.longestStreak ≥ 30)⟩,
   ⟨"trendsetter", "special", fun s => decide (s.featuredPrompts ≥ 1)⟩,
   ⟨"community-favorite", "special", fun s => decide (s.topRankedPrompts ≥ 3)⟩]

/-- The specification's description of `checkEligibility`: evaluate every
registry entry whose id is not already held and grant exactly those whose
predicate holds, in registry order. -/
def specCheckEligibility (userStats : UserStats) (heldBadgeIds : List String)
    (now : ℚ) : List BadgeGrant :=
  (specBadgeTable.filter fun c =>
      !(decide (c.id ∈ heldBadgeIds)) && c.check userStats).map
    fun c => ⟨c.id, c.type, now⟩

/-! Longest activity streak. -/

/-- Insertion step of the comparison sort used to model `Array.prototype.sort`;
`le x y` means that `x` may be placed before `y`. -/
def insertByLe {α : Type} (le : α → α → Bool) (x : α) : List α → List α
  | [] => [x]
  | y :: ys => if le x y then x :: y :: ys else y :: insertByLe le x ys

/-- Comparison sort modelling `Array.prototype.sort` (a permutation of the
input that is sorted for the given comparison). -/
def sortByLe {α : Type} (le : α → α → Bool) (l : List α) : List α :=
  l.foldr (insertByLe le) []

/-- The scan loop of `calculateLongestStreak` (source lines 379-390): walk the
sorted dates, increment the running streak on a gap of exactly one day,
reset it on a larger gap, leave it alone on a zero gap, and track the
maximum. -/
def streakLoop (prev currentStreak longestStreak : ℕ) : List ℕ → ℕ
  | [] => longestStreak
  | d :: rest =>
    let dayDiff : ℤ := (d : ℤ) - (prev : ℤ)
    if dayDiff = 1 then
      streakLoop d (currentStreak + 1) (max longestStreak (currentStreak + 1)) rest
    else if 1 < dayDiff then streakLoop d 1 longestStreak rest
    else streakLoop d currentStreak longestStreak rest

/-- `calculateLongestStreak(dates)`, source lines 372-393.  A calendar day is
identified with its epoch day number; for fixed-width ISO `"YYYY-MM-DD"`
strings the source's lexicographic `sort()` coincides with day-number order,
and its millisecond difference divided by 86400000 is the day-number
difference. -/
def calculateLongestStreak (dates : List ℕ) : ℕ :=
  if dates = [] then 0
  else
    match sortByLe (fun a b => decide (a ≤ b)) dates with
    | [] => 0
    | d :: rest => streakLoop d 1 1 rest

/-- The specification's reference streak algorithm (§4.2), written as a fold:
sort ascending, scan consecutively carrying (previous date, running streak,
maximum streak seen); a gap of one increments, a gap above one resets to 1, a
zero gap changes nothing; empty input yields 0. -/
def specComputeLongestStreak (dates : List ℕ) : ℕ :=
  match sortByLe (fun a b => decide (a ≤ b)) dates with
  | [] => 0
  | d :: rest =>
    (rest.foldl (fun (st : ℕ × ℕ × ℕ) (d2 : ℕ) =>
        if (d2 : ℤ) - (st.1 : ℤ) = 1 then (d2, st.2.1 + 1, max st.2.2 (st.2.1 + 1))
        else if 1 < (d2 : ℤ) - (st.1 : ℤ) then (d2, 1, st.2.2)
        else (d2, st.2.1, st.2.2)) (d, 1, 1)).2.2

/-! Leaderboard Engine. -/

/-- A prompt record as consumed by `LeaderboardEngine` (identity fields plus
the already-computed score and signals); `createdAt` is in days since the
epoch. -/
structure Prompt where
  id : String
  categoryId : String
  status : String
  isPublic : Bool
  createdAt : ℚ
  score : ℚ
  usageCount : ℚ
  averageRating : ℚ
  ratingCount : ℚ
deriving DecidableEq

/-- A user record as consumed by `generateGlobalLeaderboard` and
`generateCategoryLeaderboard`. -/
structure User where
  id : String
  isActive : Bool
  totalScore : ℚ
  totalPrompts : ℚ
  averageRating : ℚ
  prompts : List Prompt
deriving DecidableEq

/-- The three-key comparator of `generateGlobalLeaderboard` (source lines
420-431), as the relation "`a` sorts no later than `b`": primary total score
descending, then prompt count descending, then average rating descending. -/
def userLe (a b : User) : Bool :=
  if b.totalScore = a.totalScore then
    if b.totalPrompts = a.totalPrompts then
      decide (b.averageRating ≤ a.averageRating)
    else decide (b.totalPrompts < a.totalPrompts)
  else decide (b.totalScore < a.totalScore)

/-- Output row of `generateGlobalLeaderboard`: the user spread together with
the assigned `rank` and `leaderboardType`. -/
structure RankedUser where
  user : User
  rank : ℕ
  leaderboardType : String
deriving DecidableEq

/-- `generateGlobalLeaderboard(users, limit)`, source lines 417-438. -/
def generateGlobalLeaderboard (users : List User) (limit : ℕ) : List RankedUser :=
  ((sortByLe userLe (users.filter fun u =>
      u.isActive && decide (0 < u.totalScore))).take limit).enum.map
    fun p => ⟨p.2, p.1 + 1, "global"⟩

/-- `calculateCategoryAverageRating(prompts)`, source lines 493-504: the
rating-count-weighted average rating, rounded to 2 decimal places. -/
def calculateCategoryAverageRating (prompts : List Prompt) : ℚ :=
  if prompts = [] then 0
  else
    let totalRatings := prompts.foldl (fun sum p => sum + p.ratingCount) 0
    if totalRatings = 0 then 0
    else
      let weightedSum := prompts.foldl (fun sum p => sum + p.averageRating * p.ratingCount) 0
      (jround ((weightedSum / totalRatings) * 100) : ℚ) / 100

/-- The per-user record built by the `.map` of `generateCategoryLeaderboard`
(source lines 450-465): the user spread together with the category aggregate
fields. -/
structure CategoryEntry where
  user : User
  categoryPromptsCount : ℕ
  categoryScore : ℚ
  categoryUsage : ℚ
  categoryAverageRating : ℚ
deriving DecidableEq

/-- The `.map` body of `generateCategoryLeaderboard` (source lines 450-465). -/
def categoryEntryOf (categoryId : String) (u : User) : CategoryEntry :=
  let categoryPrompts := u.prompts.filter fun p =>
    decide (p.categoryId = categoryId) && decide (p.status = "active")
  { user := u
    categoryPromptsCount := categoryPrompts.length
    categoryScore := categoryPrompts.foldl (fun sum p => sum + p.score) 0
    categoryUsage := categoryPrompts.foldl (fun sum p => sum + p.usageCount) 0
    categoryAverageRating := calculateCategoryAverageRating categoryPrompts }

/-- The three-key comparator of `generateCategoryLeaderboard` (source lines
467-478): category score, then category usage, then category average rating,
all descending. -/
def categoryLe (a b : CategoryEntry) : Bool :=
  if b.categoryScore = a.categoryScore then
    if b.categoryUsage = a.categoryUsage then
      decide (b.categoryAverageRating ≤ a.categoryAverageRating)
    else decide (b.categoryUsage < a.categoryUsage)
  else decide (b.categoryScore < a.categoryScore)

/-- Output row of `generateCategoryLeaderboard`. -/
structure RankedCategoryEntry where
  entry : CategoryEntry
  rank : ℕ
  leaderboardType : String
  categoryId : String
deriving DecidableEq

/-- `generateCategoryLeaderboard(users, categoryId, limit)`, source lines
447-486. -/
def generateCategoryLeaderboard (users : List User) (categoryId : String)
    (limit : ℕ) : List RankedCategoryEntry :=
  ((sortByLe categoryLe ((((users.filter fun u => u.isActive).map
      (categoryEntryOf categoryId)).filter
        fun e => decide (0 < e.categoryPromptsCount)))).take limit).enum.map
    fun p => ⟨p.2, p.1 + 1, "category", categoryId⟩

/-- `ageMultiplier` of `calculateTrendingScore` (source line 546). -/
def ageMultiplier (age days : ℚ) : ℚ := max 0.1 (1 - age / days)

/-- The unrounded weighted sum inside `calculateTrendingScore` (source lines
548-552). -/
def trendingRawOfAge (score usage rating age days : ℚ) : ℚ :=
  score * ageMultiplier age days + usage * 2 * ageMultiplier age days +
    rating * 10 * ageMultiplier age days

/-- `calculateTrendingScore(prompt, days)` (source lines 544-553) as a
function of the prompt's age in days (`(Date.now() - createdAt) / 86400000`). -/
def trendingScoreOfAge (score usage rating age days : ℚ) : ℤ :=
  jround (trendingRawOfAge score usage rating age days)

/-- `calculateTrendingScore(prompt, days)` itself: the age is computed from
the wall clock read `Date.now()`, passed here as `now`. -/
def calculateTrendingScore (now : ℚ) (p : Prompt) (days : ℚ) : ℤ :=
  trendingScoreOfAge p.score p.usageCount p.averageRating (now - p.createdAt) days

/-- The comparator of `generateTrendingLeaderboard` (source lines 523-528):
trending score descending. -/
def trendingLe (now days : ℚ) (a b : Prompt) : Bool :=
  decide (calculateTrendingScore now b days ≤ calculateTrendingScore now a days)

/-- Output row of `generateTrendingLeaderboard`. -/
structure RankedTrendingPrompt where
  prompt : Prompt
  rank : ℕ
  trendingScore : ℤ
  leaderboardType : String
deriving DecidableEq

/-- `generateTrendingLeaderboard(prompts, days, limit)`, source lines 513-536.
The cutoff `new Date()` minus `days` days is `now - days`. -/
def generateTrendingLeaderboard (now : ℚ) (prompts : List Prompt) (days : ℚ)
    (limit : ℕ) : List RankedTrendingPrompt :=
  let cutoff := now - days
  ((sortByLe (trendingLe now days) (prompts.filter fun p =>
      decide (p.status = "active") && p.isPublic &&
        decide (cutoff ≤ p.createdAt))).take limit).enum.map
    fun p => ⟨p.2, p.1 + 1, calculateTrendingScore now p.2 days, "trending"⟩

/-! Helper lemmas about `jround` and the sub-score caps. -/

theorem jround_le_int (q : ℚ) (z : ℤ) (h : q ≤ z) : jround q ≤ z := by
  have h1 : q + 1/2 < (z : ℚ) + 1 := by linarith
  have := Int.floor_lt.mpr (by push_cast; linarith : q + 1/2 < ((z + 1 : ℤ) : ℚ))
  unfold jround
  omega

theorem jround_mono {q r : ℚ} (h : q ≤ r) : jround q ≤ jround r :=
  Int.floor_le_floor (by linarith)

theorem confidence_nonneg (n : ℚ) : 0 ≤ getConfidenceMultiplier n := by
  unfold getConfidenceMultiplier
  split_ifs <;> norm_num

theorem confidence_le_one (n : ℚ) : getConfidenceMultiplier n ≤ 1 := by
  unfold getConfidenceMultiplier
  split_ifs <;> norm_num

theorem calculateRatingScore_le (d : PromptData) (h5 : d.averageRating ≤ 5) :
    calculateRatingScore d ≤ 100 := by
  unfold calculateRatingScore
  split_ifs
  · norm_num
  · apply jround_le_int
    have hbase : ((d.averageRating - 1) / 4) * ratingMax ≤ 100 := by
      unfold ratingMax; linarith
    rcases le_or_lt 0 (((d.averageRating - 1) / 4) * ratingMax) with h0 | h0
    · calc ((d.averageRating - 1) / 4) * ratingMax * getConfidenceMultiplier d.ratingCount
          ≤ ((d.averageRating - 1) / 4) * ratingMax * 1 :=
            mul_le_mul_of_nonneg_left (confidence_le_one _) h0
        _ ≤ (100 : ℤ) := by push_cast; linarith
    · have := mul_nonpos_of_nonpos_of_nonneg (le_of_lt h0)
        (confidence_nonneg d.ratingCount)
      push_cast
      linarith

theorem calculateUsageScore_le (log10 : ℚ → ℚ) (d : PromptData) :
    calculateUsageScore log10 d ≤ 50 := by
  unfold calculateUsageScore
  split_ifs
  · norm_num
  · exact jround_le_int _ _ (le_trans (min_le_right _ _) (by norm_num [usageMax]))
  · exact jround_le_int _ _ (le_trans (min_le_right _ _) (by norm_num [usageMax]))

theorem calculateRecencyScore_le (d : PromptData) : calculateRecencyScore d ≤ 20 := by
  unfold calculateRecencyScore
  exact jround_le_int _ _ (le_trans (min_le_right _ _) (by norm_num [recencyMax]))

theorem calculateEngagementScore_le (d : PromptData) :
    calculateEngagementScore d ≤ 30 := by
  unfold calculateEngagementScore
  exact jround_le_int _ _ (le_trans (min_le_right _ _) (by norm_num [engagementMax]))

theorem streakLoop_eq_foldl (l : List ℕ) : ∀ (prev cur best : ℕ),
    streakLoop prev cur best l =
      (l.foldl (fun (st : ℕ × ℕ × ℕ) (d2 : ℕ) =>
        if (d2 : ℤ) - (st.1 : ℤ) = 1 then (d2, st.2.1 + 1, max st.2.2 (st.2.1 + 1))
        else if 1 < (d2 : ℤ) - (st.1 : ℤ) then (d2, 1, st.2.2)
        else (d2, st.2.1, st.2.2)) (prev, cur, best)).2.2 := by
  induction l with
  | nil => intro prev cur best; rfl
  | cons d rest ih =>
      intro prev cur best
      show streakLoop prev cur best (d :: rest) = _
      rw [streakLoop]
      simp only [List.foldl_cons]
      split_ifs <;> exact ih _ _ _


/-! Dense-rank lemmas shared by the three leaderboard generators. -/

theorem rankMap_enumFrom {α β : Type} (mk : ℕ × α → β) (rank : β → ℕ)
    (h : ∀ p, rank (mk p) = p.1 + 1) :
    ∀ (n : ℕ) (l : List α),
      ((List.enumFrom n l).map mk).map rank = List.range' (n + 1) l.length := by
  intro n l
  induction l generalizing n with
  | nil => rfl
  | cons a l ih =>
      show rank (mk (n, a)) :: ((List.enumFrom (n + 1) l).map mk).map rank =
        (n + 1) :: List.range' (n + 1 + 1) l.length
      rw [h, ih]

theorem ranked_build_spec {α β : Type} (mk : ℕ × α → β) (rank : β → ℕ)
    (h : ∀ p, rank (mk p) = p.1 + 1) (l : List α) (n : ℕ) :
    (((l.take n).enum.map mk).map rank =
        List.range' 1 (((l.take n).enum.map mk).length))
    ∧ ((l.take n).enum.map mk).length ≤ n := by
  have hlen : ((l.take n).enum.map mk).length = (l.take n).length := by
    rw [List.length_map, List.enum_length]
  constructor
  · rw [hlen]
    exact rankMap_enumFrom mk rank h 0 (l.take n)
  · rw [hlen]
    exact List.length_take_le n l

theorem decideAnd (p q : Prop) [Decidable p] [Decidable q] :
    decide (p ∧ q) = (decide p && decide q) := by simp

theorem calculateScore_clamped (log10 : ℚ → ℚ) (d : PromptData) :
    0 ≤ calculateScore log10 d ∧ calculateScore log10 d ≤ 200 := by
  unfold calculateScore
  exact ⟨le_max_left _ _, max_le (by norm_num) (min_le_left _ _)⟩

theorem checkEligibility_map_badgeId (stats : UserStats) (held : List String)
    (now : ℚ) :
    (checkEligibility stats held now).map BadgeGrant.badgeId =
      (badgeCriteria.filter fun c =>
        !(decide (c.id ∈ held)) && c.check stats).map BadgeCriterion.id := by
  unfold checkEligibility
  rw [List.map_map]
  rfl

/-! The claims. -/

/-- C2: for every `ratingCount ≥ 1`, the confidence multiplier applied to the
rating sub-score equals the specification's tier function (highest satisfied
tier of `<3→0.6, <5→0.7, <10→0.8, <25→0.9, <50→0.95, ≥50→1.0`) and is
monotonically non-decreasing in `ratingCount`. -/
theorem confidenceMultiplier_spec_and_monotone :
    ∀ n m : ℚ, 1 ≤ n → n ≤ m →
      getConfidenceMultiplier n = specConfidenceMultiplier n ∧
      getConfidenceMultiplier n ≤ getConfidenceMultiplier m := by
  intro n m h1 hnm
  constructor
  · unfold getConfidenceMultiplier specConfidenceMultiplier
    split_ifs <;> first | rfl | linarith
  · unfold getConfidenceMultiplier
    split_ifs <;> first | rfl | linarith

/-- C8: for every signal whose numeric fields are non-negative and whose
average rating lies in `[0, 5]` (including below 1), and for every choice of
the abstracted `Math.log10`, the total score returned by `calculateScore`
lies in `[0, 200]`. -/
theorem calculateScore_in_range :
    ∀ (log10 : ℚ → ℚ) (d : PromptData),
      0 ≤ d.ratingCount → 0 ≤ d.usageCount → 0 ≤ d.daysSinceCreated →
      0 ≤ d.favoriteCount → 0 ≤ d.shareCount → 0 ≤ d.viewCount →
      0 ≤ d.commentCount → 0 ≤ d.averageRating → d.averageRating ≤ 5 →
      0 ≤ calculateScore log10 d ∧ calculateScore log10 d ≤ 200 := by
  intro log10 d _ _ _ _ _ _ _ _ _
  exact calculateScore_clamped log10 d

/-- C10: for every signal with non-negative fields and `averageRating ≤ 5`,
and every choice of `Math.log10`, the total score never exceeds 62
(`100*0.4 + 50*0.3 + 20*0.2 + 30*0.1`), so the upper clamp at 200 is never
active and the `topRankedPrompts` threshold of 150 is unreachable. -/
theorem calculateScore_le_62 :
    ∀ (log10 : ℚ → ℚ) (d : PromptData),
      0 ≤ d.ratingCount → 0 ≤ d.usageCount → 0 ≤ d.daysSinceCreated →
      0 ≤ d.favoriteCount → 0 ≤ d.shareCount → 0 ≤ d.viewCount →
      0 ≤ d.commentCount → 0 ≤ d.averageRating → d.averageRating ≤ 5 →
      calculateScore log10 d ≤ 62 ∧ calculateScore log10 d < 150 := by
  intro log10 d _ _ _ _ _ _ _ _ h5
  have hR := calculateRatingScore_le d h5
  have hU := calculateUsageScore_le log10 d
  have hC := calculateRecencyScore_le d
  have hE := calculateEngagementScore_le d
  have h62 : calculateScore log10 d ≤ 62 := by
    unfold calculateScore
    have ht : jround ((calculateRatingScore d : ℚ) * ratingWeight +
        (calculateUsageScore log10 d : ℚ) * usageWeight +
        (calculateRecencyScore d : ℚ) * recencyWeight +
        (calculateEngagementScore d : ℚ) * engagementWeight) ≤ 62 := by
      apply jround_le_int
      have hRq : ((calculateRatingScore d : ℤ) : ℚ) ≤ 100 := by exact_mod_cast hR
      have hUq : ((calculateUsageScore log10 d : ℤ) : ℚ) ≤ 50 := by exact_mod_cast hU
      have hCq : ((calculateRecencyScore d : ℤ) : ℚ) ≤ 20 := by exact_mod_cast hC
      have hEq : ((calculateEngagementScore d : ℤ) : ℚ) ≤ 30 := by exact_mod_cast hE
      unfold ratingWeight usageWeight recencyWeight engagementWeight
      push_cast
      linarith
    exact max_le (by norm_num) (le_trans (min_le_right _ _) ht)
  exact ⟨h62, by omega⟩

/-- C6: the longest-streak computation agrees with the specification's
reference algorithm on every input, and produces the tabled values on the
three reference inputs (dates as epoch day numbers: 19723 = 2024-01-01,
19724 = 2024-01-02, 19725 = 2024-01-03, 19727 = 2024-01-05). -/
theorem longestStreak_matches_spec :
    (∀ dates : List ℕ, calculateLongestStreak dates = specComputeLongestStreak dates) ∧
    calculateLongestStreak [] = 0 ∧
    calculateLongestStreak [19723, 19724, 19725] = 3 ∧
    calculateLongestStreak [19723, 19727] = 1 := by
  refine ⟨?_, rfl, by decide, by decide⟩
  intro dates
  unfold calculateLongestStreak specComputeLongestStreak
  by_cases h : dates = []
  · subst h; rfl
  · rw [if_neg h]
    cases sortByLe (fun a b => decide (a ≤ b)) dates with
    | nil => rfl
    | cons d rest => exact streakLoop_eq_foldl rest d 1 1

/-- C9: every leaderboard result of length `N` carries ranks exactly
`1, 2, …, N` in order (1-based, dense, no duplicates even on tied sort
keys), and `N` never exceeds the requested limit — for all three
generators, on every input collection, category, clock reading, window and
limit. -/
theorem leaderboard_ranks_dense :
    ∀ (users : List User) (prompts : List Prompt) (categoryId : String)
      (now days : ℚ) (limitG limitC limitT : ℕ),
      ((generateGlobalLeaderboard users limitG).map RankedUser.rank =
          List.range' 1 (generateGlobalLeaderboard users limitG).length ∧
        (generateGlobalLeaderboard users limitG).length ≤ limitG) ∧
      ((generateCategoryLeaderboard users categoryId limitC).map
            RankedCategoryEntry.rank =
          List.range' 1 (generateCategoryLeaderboard users categoryId limitC).length ∧
        (generateCategoryLeaderboard users categoryId limitC).length ≤ limitC) ∧
      ((generateTrendingLeaderboard now prompts days limitT).map
            RankedTrendingPrompt.rank =
          List.range' 1 (generateTrendingLeaderboard now prompts days limitT).length ∧
        (generateTrendingLeaderboard now prompts days limitT).length ≤ limitT) := by
  intro users prompts categoryId now days limitG limitC limitT
  refine ⟨?_, ?_, ?_⟩
  · exact ranked_build_spec (fun p => ⟨p.2, p.1 + 1, "global"⟩) RankedUser.rank
      (fun p => rfl)
      (sortByLe userLe (users.filter fun u => u.isActive && decide (0 < u.totalScore)))
      limitG
  · exact ranked_build_spec (fun p => ⟨p.2, p.1 + 1, "category", categoryId⟩)
      RankedCategoryEntry.rank (fun p => rfl)
      (sortByLe categoryLe ((((users.filter fun u => u.isActive).map
        (categoryEntryOf categoryId)).filter
          fun e => decide (0 < e.categoryPromptsCount))))
      limitC
  · exact ranked_build_spec
      (fun p => ⟨p.2, p.1 + 1, calculateTrendingScore now p.2 days, "trending"⟩)
      RankedTrendingPrompt.rank (fun p => rfl)
      (sortByLe (trendingLe now days) (prompts.filter fun p =>
        decide (p.status = "active") && p.isPublic &&
          decide (now - days ≤ p.createdAt)))
      limitT

/-- C4: for every stats snapshot, held-badge set, and clock reading,
`checkEligibility` returns exactly the grants that the specification's
15-entry registry table prescribes (not-held and predicate true, emitted in
declaration order), and the registry's declaration order is `first-steps`
through `community-favorite` as tabled. -/
theorem checkEligibility_matches_registry :
    (∀ (stats : UserStats) (held : List String) (now : ℚ),
      checkEligibility stats held now = specCheckEligibility stats held now) ∧
    badgeCriteria.map BadgeCriterion.id =
      ["first-steps", "getting-started", "prolific-creator", "content-machine",
       "popular-choice", "crowd-favorite", "viral-creator", "well-received",
       "highly-rated", "excellence", "perfection", "consistent", "dedicated",
       "trendsetter", "community-favorite"] := by
  constructor
  · intro stats held now
    unfold checkEligibility specCheckEligibility badgeCriteria specBadgeTable
    simp only [decideAnd]
  · rfl

/-- C5: badge granting is idempotent — with unchanged stats, the set of
granted badges does not depend on the clock reading, and once the first
result's badge ids are appended to the held set, a second run grants
nothing. -/
theorem checkEligibility_idempotent :
    ∀ (stats : UserStats) (held : List String) (now1 now2 : ℚ),
      checkEligibility stats
        (held ++ (checkEligibility stats held now1).map BadgeGrant.badgeId) now2 = [] ∧
      (checkEligibility stats held now2).map BadgeGrant.badgeId =
        (checkEligibility stats held now1).map BadgeGrant.badgeId := by
  intro stats held now1 now2
  refine ⟨?_, by rw [checkEligibility_map_badgeId, checkEligibility_map_badgeId]⟩
  rw [checkEligibility_map_badgeId]
  unfold checkEligibility
  rw [List.map_eq_nil_iff, List.filter_eq_nil_iff]
  intro c hc
  simp only [Bool.and_eq_true, Bool.not_eq_true', decide_eq_false_iff_not,
    List.mem_append, not_and]
  intro hnot
  have h1 : c.id ∉ held := fun h => hnot (Or.inl h)
  intro hcheck
  apply hnot
  right
  exact List.mem_map.mpr
    ⟨c, List.mem_filter.mpr ⟨hc, by rw [decide_eq_false h1, hcheck]; rfl⟩, rfl⟩

/-- C1 (amended): every engine operation is deterministic given its explicit
inputs together with the wall-clock reading, and the clock influences
`checkEligibility`'s result only through the `earnedAt` timestamps: the
granted badge ids and types are identical across clock readings. -/
theorem checkEligibility_grants_clock_independent :
    ∀ (stats : UserStats) (held : List String) (now1 now2 : ℚ),
      (checkEligibility stats held now1).map (fun g => (g.badgeId, g.type)) =
      (checkEligibility stats held now2).map (fun g => (g.badgeId, g.type)) := by
  intro stats held now1 now2
  unfold checkEligibility
  rw [List.map_map, List.map_map]
  rfl

/-- C3 (amended): the engine never signals an `InvalidInput` condition — a
signal containing a negative count (here a negative `favoriteCount`, with
`usageCount` kept non-negative so that the source's `Math.log10` stays
defined) is still scored, and the result is an ordinary clamped numeric
score in `[0, 200]`. -/
theorem negative_counts_still_scored :
    ∀ (log10 : ℚ → ℚ) (d : PromptData),
      d.favoriteCount < 0 → 0 ≤ d.usageCount →
      0 ≤ calculateScore log10 d ∧ calculateScore log10 d ≤ 200 := by
  intro log10 d _ _
  exact calculateScore_clamped log10 d

/-- C7 (amended): for fixed score, usage and rating inputs (all
non-negative) the rounded trending score is non-increasing in `ageInDays`
over the window, and the unrounded weighted sum strictly decreases as long
as the age multiplier is above its `0.1` floor (`ageInDays < 0.9 * days`)
and the weighted base is positive. -/
theorem trendingScore_monotone_decay :
    ∀ score usage rating days a1 a2 : ℚ,
      0 ≤ score → 0 ≤ usage → 0 ≤ rating → 0 < days → 0 ≤ a1 → a1 ≤ a2 →
      (trendingScoreOfAge score usage rating a2 days ≤
        trendingScoreOfAge score usage rating a1 days) ∧
      (a1 < a2 → a2 < 9/10 * days → 0 < score + usage * 2 + rating * 10 →
        trendingRawOfAge score usage rating a2 days <
          trendingRawOfAge score usage rating a1 days) := by
  intro s u r days a1 a2 hs hu hr hd ha1 h12
  have h01 : (0.1 : ℚ) = 1/10 := by norm_num
  have hdivle : a1 / days ≤ a2 / days := by gcongr
  have hm : ageMultiplier a2 days ≤ ageMultiplier a1 days := by
    unfold ageMultiplier
    exact max_le_max (le_refl _) (by linarith)
  have hbase : (0 : ℚ) ≤ s + u * 2 + r * 10 := by linarith
  have hraw : ∀ a : ℚ, trendingRawOfAge s u r a days =
      (s + u * 2 + r * 10) * ageMultiplier a days := by
    intro a; unfold trendingRawOfAge; ring
  constructor
  · unfold trendingScoreOfAge
    apply jround_mono
    rw [hraw, hraw]
    exact mul_le_mul_of_nonneg_left hm hbase
  · intro hlt h910 hpos
    rw [hraw, hraw]
    apply mul_lt_mul_of_pos_left ?_ hpos
    have hdivlt : a1 / days < a2 / days := by gcongr
    have h2 : (1 : ℚ)/10 < 1 - a2 / days := by
      have : a2 / days < 9/10 := by rw [div_lt_iff₀ hd]; linarith
      linarith
    unfold ageMultiplier
    calc max 0.1 (1 - a2 / days) = 1 - a2 / days := by
          rw [max_eq_right]; rw [h01]; linarith
      _ < 1 - a1 / days := by linarith
      _ ≤ max 0.1 (1 - a1 / days) := le_max_right _ _

/-! Concrete evaluations: counterexamples and witnesses.  The arithmetic
definitions of `Rat` are irreducible by default, which blocks `decide`; they
are made semireducible locally so that the kernel can evaluate the engine on
concrete inputs. -/

section

attribute [local semireducible] Rat.mul Rat.add Rat.inv Rat.sub Rat.ofScientific

/-- C1 counterexample: `checkEligibility` reads the wall clock — on identical
stats (one prompt, nothing else) and an empty held set, two invocations at
different clock readings return different outputs (the `earnedAt`
timestamps differ). -/
theorem checkEligibility_clock_dependent :
    checkEligibility ⟨1, 0, 0, 0, 0, 0, 0, 0, 0⟩ [] 0 ≠
      checkEligibility ⟨1, 0, 0, 0, 0, 0, 0, 0, 0⟩ [] 1 := by decide

/-- C3 counterexample: on inputs containing negative count fields the engine
does not signal any `InvalidInput` condition — `calculateScore` on a signal
with `favoriteCount = -1` returns the ordinary numeric score 16, and
`checkEligibility` on stats with `totalPrompts = -5` and `totalUsage = -3`
returns an ordinary grant result. -/
theorem negativeInput_returns_ordinary_result :
    calculateScore (fun _ => 0) ⟨3, 2, 0, 0, none, -1, 0, 0, 0⟩ = 16 ∧
    checkEligibility ⟨-5, 0, -3, 0, 0, 0, 1, 0, 0⟩ [] 0 =
      [⟨"trendsetter", "special", 0⟩] := by decide

/-- C7 counterexample: the trending score is not strictly decreasing in age —
for a prompt with score 1, usage 0 and rating 0 in a 7-day window, the ages
0 and 1 both round to trending score 1. -/
theorem trendingScore_not_strictly_decreasing :
    (0 : ℚ) ≤ 0 ∧ (0 : ℚ) < 1 ∧ (1 : ℚ) < 7 ∧
    trendingScoreOfAge 1 0 0 0 7 = 1 ∧ trendingScoreOfAge 1 0 0 1 7 = 1 ∧
    ¬(trendingScoreOfAge 1 0 0 1 7 < trendingScoreOfAge 1 0 0 0 7) := by decide

/-- C2 witness: the theorem applied at `ratingCount` 3 and 10. -/
theorem confidenceMultiplier_spec_and_monotone_witness :
    getConfidenceMultiplier 3 = specConfidenceMultiplier 3 ∧
    getConfidenceMultiplier 3 ≤ getConfidenceMultiplier 10 :=
  confidenceMultiplier_spec_and_monotone 3 10 (by decide) (by decide)

/-- C8 witness: the theorem applied at the all-zero signal. -/
theorem calculateScore_in_range_witness :
    0 ≤ calculateScore (fun _ => 0) ⟨0, 0, 0, 0, none, 0, 0, 0, 0⟩ ∧
    calculateScore (fun _ => 0) ⟨0, 0, 0, 0, none, 0, 0, 0, 0⟩ ≤ 200 :=
  calculateScore_in_range (fun _ => 0) ⟨0, 0, 0, 0, none, 0, 0, 0, 0⟩
    (by decide) (by decide) (by decide) (by decide) (by decide)
    (by decide) (by decide) (by decide) (by decide)

/-- C10 witness: the theorem applied at the all-zero signal. -/
theorem calculateScore_le_62_witness :
    calculateScore (fun _ => 0) ⟨0, 0, 0, 0, none, 0, 0, 0, 0⟩ ≤ 62 ∧
    calculateScore (fun _ => 0) ⟨0, 0, 0, 0, none, 0, 0, 0, 0⟩ < 150 :=
  calculateScore_le_62 (fun _ => 0) ⟨0, 0, 0, 0, none, 0, 0, 0, 0⟩
    (by decide) (by decide) (by decide) (by decide) (by decide)
    (by decide) (by decide) (by decide) (by decide)

/-- C3 (amended) witness: the theorem applied at a signal with
`favoriteCount = -1`. -/
theorem negative_counts_still_scored_witness :
    0 ≤ calculateScore (fun _ => 0) ⟨3, 2, 0, 0, none, -1, 0, 0, 0⟩ ∧
    calculateScore (fun _ => 0) ⟨3, 2, 0, 0, none, -1, 0, 0, 0⟩ ≤ 200 :=
  negative_counts_still_scored (fun _ => 0) ⟨3, 2, 0, 0, none, -1, 0, 0, 0⟩
    (by decide) (by decide)

/-- C7 (amended) witness: the theorem applied at score 1, usage 0, rating 0,
window 7 days, ages 0 and 1. -/
theorem trendingScore_monotone_decay_witness :
    (trendingScoreOfAge 1 0 0 1 7 ≤ trendingScoreOfAge 1 0 0 0 7) ∧
    ((0 : ℚ) < 1 → (1 : ℚ) < 9/10 * 7 → (0 : ℚ) < 1 + 0 * 2 + 0 * 10 →
      trendingRawOfAge 1 0 0 1 7 < trendingRawOfAge 1 0 0 0 7) :=
  trendingScore_monotone_decay 1 0 0 7 0 1 (by decide) (by decide)
    (by decide) (by decide) (by decide) (by decide)

end

end PromptRepo
